import Mathlib

/-!
Verification development for the SmartPin TPO multi-agent orchestrator.

This file gives a shallow embedding, in Lean 4, of the decision logic of the
repository: the QA-review decision engine (`agents/qa_reviewer.py`), the
pin-operations handler (`agents/pin_ops.py`), the shared validation helper
(`agents/base_agent.py`), and the supervisor routing / error recovery
(`main.py`).  Python dictionaries are modelled as association lists, Python
`None`/truthiness is modelled explicitly, machine floats of the source are
modelled as rationals (every reachable score is a small exact fraction, so
the comparisons agree with the float comparisons of the source), and Python
exceptions that escape a function are modelled with `Except`.
-/

/-- A Python scalar value as it appears in the parameter dictionaries of the
handlers: `none` models Python `None`; `other` stands for any non-`None`,
non-scalar object (list, dict, message list, ...), which the validation logic
only ever inspects for `None`-ness. -/
inductive PyVal
  | none
  | str (s : String)
  | num (q : ℚ)
  | other
deriving DecidableEq, Repr

/-- A Python dict with string keys, as an association list (first binding of a
key wins on lookup). -/
abbrev Dict := List (String × PyVal)

/-- Python truthiness of an optional string (`None` and `""` are falsy). -/
def pyTruthy : Option String → Bool
  | Option.none => false
  | some s => !s.isEmpty

/-- `needle.isPrefixOf`-based substring test over character lists: Python's
`needle in hay`. -/
def hasSubstr (needle : List Char) : List Char → Bool
  | [] => needle.isEmpty
  | c :: rest => needle.isPrefixOf (c :: rest) || hasSubstr needle rest

/-- Python's `needle in hay` on strings. -/
def containsSub (hay needle : String) : Bool :=
  hasSubstr needle.toList hay.toList

/-- Python's `str.lower()` (the texts involved are ASCII, where the two
agree); defined over the character list so that it evaluates by kernel
reduction. -/
def lowerStr (s : String) : String :=
  String.mk (s.toList.map Char.toLower)

/-- The decision tags of the QA review engine. -/
inductive Decision
  | APPROVE
  | REJECT
  | REQUEST_MORE_INFO
  | ESCALATE
deriving DecidableEq, Repr, Fintype

/-- The result of `_make_qa_decision`: decision tag, rationale text and a
confidence in [0,1]. -/
structure QADecision where
  decision : Decision
  rationale : String
  confidence : ℚ
deriving DecidableEq, Repr

/-- The checks dictionary produced by `_apply_qa_criteria`
(`qa_reviewer.py` lines 220-255).  The three critical checks are plain
booleans there; the quality checks are stored as Python values drawn from
True / False / None, modelled as `Option Bool` with `Option.none` for the
Python `None` ("unknown"); `photo_quality_acceptable` is only present in the
dict when a closing photo exists, modelled as `Option Bool` with
`Option.none` for an absent key. -/
structure CriteriaChecks where
  has_closing_photo : Bool
  status_ready_for_review : Bool
  has_documentation : Option Bool
  all_children_closed : Bool
  within_sla : Option Bool
  photo_quality_acceptable : Option Bool
  resolution_appropriate : Option Bool
deriving DecidableEq, Repr

/-- Contribution of one quality check to `quality_score`
(`qa_reviewer.py` lines 284-289): `value is True` adds 1, `value is None`
adds 0.5, anything else adds 0. -/
def qualityContribution : Option Bool → ℚ
  | some Bool.true => 1
  | Option.none => 1/2
  | some Bool.false => 0

/-- `_make_qa_decision` (`qa_reviewer.py` lines 257-310).  The interpolated
percentage of the quality-branch rationales (a float formatting detail) is
abstracted to fixed text; the REJECT branch rationale, which the spec's
claims inspect, is modelled exactly. -/
def make_qa_decision (criteria_checks : CriteriaChecks) : QADecision :=
  let critical_failures : List String :=
    (if criteria_checks.has_closing_photo then [] else ["has_closing_photo"]) ++
    (if criteria_checks.status_ready_for_review then [] else ["status_ready_for_review"]) ++
    (if criteria_checks.all_children_closed then [] else ["all_children_closed"])
  if !critical_failures.isEmpty then
    { decision := Decision.REJECT
      rationale := "Critical requirements not met: " ++ String.intercalate ", " critical_failures
      confidence := 95/100 }
  else
    let quality_score : ℚ :=
      qualityContribution criteria_checks.has_documentation +
      qualityContribution criteria_checks.within_sla +
      qualityContribution criteria_checks.resolution_appropriate
    let qualityFrac : ℚ := quality_score / 3
    if qualityFrac ≥ 8/10 then
      { decision := Decision.APPROVE
        rationale := "All critical requirements met, quality score above threshold"
        confidence := 9/10 }
    else if qualityFrac ≥ 6/10 then
      { decision := Decision.REQUEST_MORE_INFO
        rationale := "Marginal quality score. Need additional documentation"
        confidence := 7/10 }
    else
      { decision := Decision.REJECT
        rationale := "Low quality score. Insufficient documentation"
        confidence := 8/10 }

/-- A child issue of a pin, as read from the pin data dict
(`child.get("status_child")`). -/
structure PinChild where
  status_child : Option String
deriving DecidableEq, Repr

/-- The pin data dict consumed by `_apply_qa_criteria`: each optional field
models a key that may be absent or `None`. -/
structure PinData where
  closing_photo_url : Option String
  status : Option String
  notes : Option String
  corrective_action : Option String
  pin_children : List PinChild
  opened_at : Option String
  due_date : Option String
deriving DecidableEq, Repr

/-- `_apply_qa_criteria` (`qa_reviewer.py` lines 220-255).  When both
`opened_at` and `due_date` are truthy, line 239 evaluates
`datetime.fromisoformat(...)` with `datetime` bound to the module (the
class method is `datetime.datetime.fromisoformat`, used correctly two lines
below), so the call raises `AttributeError` and the function never returns;
that fault is modelled as `Except.error`. -/
def apply_qa_criteria (pin_data : PinData) : Except String CriteriaChecks :=
  if pyTruthy pin_data.opened_at && pyTruthy pin_data.due_date then
    Except.error "AttributeError: module datetime has no attribute fromisoformat"
  else
    Except.ok
      { has_closing_photo := pyTruthy pin_data.closing_photo_url
        status_ready_for_review := decide (pin_data.status = some "ReadyForInspection")
        has_documentation :=
          some (pyTruthy pin_data.notes || pyTruthy pin_data.corrective_action)
        all_children_closed :=
          pin_data.pin_children.all (fun c => decide (c.status_child = some "Closed"))
        within_sla := Option.none
        photo_quality_acceptable :=
          if pyTruthy pin_data.closing_photo_url then some true else Option.none
        resolution_appropriate :=
          some (match pin_data.corrective_action with
                | some s => !s.isEmpty && decide (s.length > 10)
                | _ => false) }

/-- The `results` payload of a successful pin operation: the created/updated
object, or annotated search results. -/
inductive PinOpsData
  | obj (d : Dict)
  | searchResults (pins : List Dict) (count : Nat) (filters_applied : Dict)
  | nearbyResults (nearby_pins : List Dict) (count : Nat) (search_radius : PyVal)
deriving DecidableEq, Repr

/-- The structured result dict returned by the pin-operations helpers
(`pin_ops.py`); absent keys are `Option.none` / `[]`. -/
structure PinOpsResult where
  action : String
  success : Bool
  error : Option String := Option.none
  results : Option PinOpsData := Option.none
  nearby_pins : Option Nat := Option.none
  recommendations : List String := []
  next_steps : List String := []
deriving DecidableEq, Repr

/-- One entry of `review_results` in `_review_pins`: the dict returned by
`_review_single_pin` (`qa_reviewer.py` lines 188-218). -/
structure SingleReview where
  pin_id : String
  decision : Decision
  rationale : String
  confidence : ℚ
deriving DecidableEq, Repr

/-- `_generate_review_summary` output (`qa_reviewer.py` lines 409-423). -/
structure ReviewSummary where
  total_reviewed : Nat
  approved : Nat
  rejected : Nat
  escalated : Nat
  approval_rate : ℚ
deriving DecidableEq, Repr

/-- The quality indicators computed by `_analyze_quality_metrics`
(`qa_reviewer.py` lines 362-396); `closure_rate` and `concentration_ratio`
are only present in the dict under the conditions of the source. -/
structure QualityIndicators where
  closure_rate : Option ℚ
  response_time_score : ℚ
  concentration_ratio : Option ℚ
  overall_score : ℚ
  recommendations : List String
deriving DecidableEq, Repr

/-- The structured result dict returned by the QA review operations
(`qa_reviewer.py`). -/
structure QAResult where
  decision : Decision
  rationale : String
  confidence : Option ℚ := Option.none
  requirements : List String := []
  next_steps : List String := []
  individual_results : List SingleReview := []
  summary : Option ReviewSummary := Option.none
  quality_indicators : Option QualityIndicators := Option.none
  recommendations : List String := []
deriving DecidableEq, Repr

/-- A structured handler result stored in `state["results"]`. -/
inductive AgentResult
  | pinOps (r : PinOpsResult)
  | qa (r : QAResult)
  | passthrough (status : String)
deriving DecidableEq, Repr

/-- The shared `WorkflowState` (`main.py` lines 36-45); message entries are
modelled by their text content. -/
structure WorkflowState where
  messages : List String
  current_task : String
  project_id : Option String
  roof_id : Option String
  context : List (String × String)
  results : List (String × AgentResult)
  next_agent : String
  error_state : Option String
deriving DecidableEq, Repr

/-- Overwriting update of the `results` mapping, modelling
`{**state["results"], key: value}`. -/
def updateResults (results : List (String × AgentResult)) (key : String)
    (value : AgentResult) : List (String × AgentResult) :=
  results.filter (fun kv => kv.1 ≠ key) ++ [(key, value)]

/-- `_agent_completion_router` (`main.py` lines 205-212): `error_state`
truthy routes to the error handler, `next_agent == "end"` terminates, and
anything else returns to the supervisor. -/
def agent_completion_router (state : WorkflowState) : String :=
  if pyTruthy state.error_state then "error"
  else if state.next_agent = "end" then "end"
  else "supervisor"

/-- `_error_recovery_router` (`main.py` lines 214-219). -/
def error_recovery_router (state : WorkflowState) : String :=
  if state.error_state = some "recoverable" then "supervisor" else "end"

/-- The classification inside `_error_handler_node` (`main.py` line 230):
recoverable iff the lowercased detail text contains `"timeout"`. -/
def classify_error (error_msg : String) : String :=
  if containsSub (lowerStr error_msg) "timeout" then "recoverable" else "fatal"

/-- `_error_handler_node` (`main.py` lines 221-237).  The node is only
reached when `error_state` is set; with `error_state` absent the Python
code would call `.lower()` on `None`, modelled as `Option.none` here. -/
def error_handler_node (state : WorkflowState) : Option WorkflowState :=
  match state.error_state with
  | some error_msg =>
    let recovery_state := classify_error error_msg
    some { state with
           messages := ["Error encountered: " ++ error_msg ++ ". Attempting recovery..."]
           error_state := some recovery_state
           next_agent := if recovery_state = "recoverable" then "supervisor" else "end" }
  | Option.none => Option.none

/-- The deterministic keyword fallback of `_analyze_task`
(`main.py` lines 184-199), returning the `(agent, description)` pair of the
fallback dict.  Rules are tested in source order; the first match wins. -/
def analyze_task_fallback (task : String) : String × String :=
  let task_lower := lowerStr task
  if ["create", "pin", "issue", "defect"].any (fun w => containsSub task_lower w) then
    ("pin_ops", "Pin management task")
  else if ["review", "approve", "close", "inspect"].any (fun w => containsSub task_lower w) then
    ("qa_reviewer", "QA review task")
  else if ["nearby", "spatial", "region", "proximity"].any (fun w => containsSub task_lower w) then
    ("spatial_analyst", "Spatial analysis task")
  else if ["photo", "image", "upload", "picture"].any (fun w => containsSub task_lower w) then
    ("photo_processor", "Photo processing task")
  else if ["report", "export", "analytics", "summary"].any (fun w => containsSub task_lower w) then
    ("reporter", "Reporting task")
  else
    ("pin_ops", "General task")

/-- The workflow state viewed as the Python dict it is (`WorkflowState` is a
`TypedDict`): used for the `{**params, **state}` merge in `_create_pin`.
Non-scalar fields are `PyVal.other` (non-`None`). -/
def stateAsDict (state : WorkflowState) : Dict :=
  [("messages", PyVal.other),
   ("current_task", PyVal.str state.current_task),
   ("project_id", (state.project_id.map PyVal.str).getD PyVal.none),
   ("roof_id", (state.roof_id.map PyVal.str).getD PyVal.none),
   ("context", PyVal.other),
   ("results", PyVal.other),
   ("next_agent", PyVal.str state.next_agent),
   ("error_state", (state.error_state.map PyVal.str).getD PyVal.none)]

/-- `field not in state or state[field] is None` (`base_agent.py` line 86). -/
def isMissing (d : Dict) (field : String) : Bool :=
  match d.lookup field with
  | Option.none => true
  | some PyVal.none => true
  | some _ => false

/-- `_validate_inputs` (`base_agent.py` lines 82-91): collects the missing
required fields in order and reports them in one message, or returns
`Option.none` when all are present and non-null. -/
def validate_inputs (d : Dict) (required_fields : List String) : Option String :=
  let missing := required_fields.filter (fun f => isMissing d f)
  if missing.isEmpty then Option.none
  else some ("Missing required fields: " ++ String.intercalate ", " missing)

/-- The Tool Gateway as consumed by the pin-operations handler.
`_call_mcp_tool` (`base_agent.py` lines 42-48) wraps a tool call into a
`success`/`data`/`error` dict; an `Except.error` here models the
`success=False`, `error` outcome, an `Except.ok` the `success=True`, `data`
outcome. -/
structure PinOpsGateway where
  find_nearby : Dict → Except String (List Dict)
  create : Dict → Except String Dict
  update_status : Dict → Except String Dict
  create_child : Dict → Except String Dict
  search : Dict → Except String (List Dict)

/-- `_generate_pin_recommendations` (`pin_ops.py` lines 280-292).  The
source guards the status scan by `if nearby_pins:`, which is equivalent to
the plain membership test used here (no "Open" status occurs in an empty
list). -/
def generate_pin_recommendations (nearby_pins : List Dict) : List String :=
  (if nearby_pins.length > 3 then
    ["High pin density detected - consider consolidating related issues"]
  else []) ++
  (if PyVal.str "Open" ∈
      nearby_pins.map (fun pin => (pin.lookup "status").getD (PyVal.str "Unknown")) then
    ["Open pins nearby - coordinate resolution efforts"]
  else [])

/-- `_generate_proximity_recommendations` (`pin_ops.py` lines 294-304). -/
def generate_proximity_recommendations (nearby_pins : List Dict) : List String :=
  if nearby_pins.length = 0 then
    ["No nearby pins - isolated issue"]
  else if nearby_pins.length > 5 then
    ["High concentration area - may indicate systemic issue",
     "Consider pattern analysis and root cause investigation"]
  else []

/-- `_create_pin` (`pin_ops.py` lines 149-192), paired with the list of Tool
Gateway calls it makes.  `{**params, **state}` gives the state bindings
priority, modelled by putting `stateAsDict` first in the association list.
After validation the source indexes `params` directly
(`params["roof_id"]` etc.), which raises `KeyError` when a required field
was supplied by the state only; that fault is modelled as `Except.error`. -/
def create_pin (gw : PinOpsGateway) (params : Dict) (state : WorkflowState) :
    Except String (PinOpsResult × List String) :=
  let merged : Dict := stateAsDict state ++ params
  match validate_inputs merged ["roof_id", "x", "y"] with
  | some validation_error =>
    Except.ok ({ action := "create_pin", success := false, error := some validation_error }, [])
  | Option.none =>
    match params.lookup "roof_id", params.lookup "x", params.lookup "y" with
    | some rid, some px, some py =>
      let nearby_pins : List Dict :=
        match gw.find_nearby
            [("roof_id", rid), ("x", px), ("y", py), ("radius_meters", PyVal.num 5)] with
        | Except.ok l => l
        | Except.error _ => []
      (match gw.create params with
      | Except.error e =>
        Except.ok ({ action := "create_pin", success := false, error := some e,
                     nearby_pins := some nearby_pins.length },
                   ["find_nearby_pins", "create_pin"])
      | Except.ok created =>
        Except.ok ({ action := "create_pin", success := true,
                     results := some (PinOpsData.obj created),
                     nearby_pins := some nearby_pins.length,
                     recommendations := generate_pin_recommendations nearby_pins,
                     next_steps := ["upload_opening_photo", "assign_inspector"] },
                   ["find_nearby_pins", "create_pin"]))
    | _, _, _ => Except.error "KeyError"

/-- `_update_pin_status` (`pin_ops.py` lines 194-218). -/
def update_pin_status (gw : PinOpsGateway) (params : Dict) :
    PinOpsResult × List String :=
  match gw.update_status params with
  | Except.error e =>
    ({ action := "update_pin_status", success := false, error := some e },
     ["update_pin_status"])
  | Except.ok d =>
    let next_steps :=
      if params.lookup "status" = some (PyVal.str "ReadyForInspection") then
        ["schedule_inspection", "notify_qa_manager"]
      else if params.lookup "status" = some (PyVal.str "Closed") then
        ["update_reports", "notify_stakeholders"]
      else []
    ({ action := "update_pin_status", success := true,
       results := some (PinOpsData.obj d), next_steps := next_steps },
     ["update_pin_status"])

/-- `_create_pin_child` (`pin_ops.py` lines 220-231). -/
def create_pin_child (gw : PinOpsGateway) (params : Dict) :
    PinOpsResult × List String :=
  match gw.create_child params with
  | Except.error e =>
    ({ action := "create_pin_child", success := false, error := some e,
       next_steps := [] }, ["create_pin_child"])
  | Except.ok d =>
    ({ action := "create_pin_child", success := true,
       results := some (PinOpsData.obj d),
       next_steps := ["assign_child_priority", "set_due_date"] },
     ["create_pin_child"])

/-- `_search_pins` (`pin_ops.py` lines 233-254). -/
def search_pins_op (gw : PinOpsGateway) (params : Dict) :
    PinOpsResult × List String :=
  match gw.search params with
  | Except.ok pins =>
    ({ action := "search_pins", success := true,
       results := some (PinOpsData.searchResults pins pins.length params) },
     ["search_pins"])
  | Except.error e =>
    ({ action := "search_pins", success := false, error := some e }, ["search_pins"])

/-- `_find_nearby_pins` (`pin_ops.py` lines 256-278). -/
def find_nearby_pins_op (gw : PinOpsGateway) (params : Dict) :
    PinOpsResult × List String :=
  match gw.find_nearby params with
  | Except.ok nearby =>
    ({ action := "find_nearby_pins", success := true,
       results := some (PinOpsData.nearbyResults nearby nearby.length
         ((params.lookup "radius_meters").getD (PyVal.num 10))),
       recommendations := generate_proximity_recommendations nearby },
     ["find_nearby_pins"])
  | Except.error e =>
    ({ action := "find_nearby_pins", success := false, error := some e },
     ["find_nearby_pins"])

/-- The parsed Classifier answer consumed by `_execute_operation`
(`pin_ops.py` lines 124-147): `operation` tag and `parameters` dict
(the other keys of the answer are never read by the dispatch). -/
structure OpAnalysis where
  operation : String
  parameters : Dict
deriving DecidableEq, Repr

/-- `_execute_operation` (`pin_ops.py` lines 124-147): string dispatch with
a structured unknown-operation failure as the default branch. -/
def execute_operation (gw : PinOpsGateway) (operation : OpAnalysis)
    (state : WorkflowState) : Except String (PinOpsResult × List String) :=
  let op_type := operation.operation
  let params := operation.parameters
  if op_type = "create_pin" then create_pin gw params state
  else if op_type = "update_pin_status" then Except.ok (update_pin_status gw params)
  else if op_type = "create_pin_child" then Except.ok (create_pin_child gw params)
  else if op_type = "search_pins" then Except.ok (search_pins_op gw params)
  else if op_type = "find_nearby_pins" then Except.ok (find_nearby_pins_op gw params)
  else
    Except.ok ({ action := "unknown_operation", success := false,
                 error := some ("Unknown operation: " ++ op_type) }, [])

/-- The completion message text of `PinOpsAgent.process`
(`pin_ops.py` lines 79-82). -/
def pinOpsResponseMsg (result : PinOpsResult) : String :=
  "[PinOps] Pin operation completed: " ++ result.action ++ ". Success: " ++
    (if result.success then "True" else "False")

/-- `PinOpsAgent.process` (`pin_ops.py` lines 49-89), parameterised by the
parsed Classifier analysis (`Option.none` models an unparsable answer) and
the Tool Gateway.  The returned dict replaces `messages`, merges the result
into `results` and sets `next_agent` to `"end"` on success and `"error"`
otherwise; the error paths set `error_state` and leave the rest of the
state unchanged. -/
def pinOpsProcess (operation_analysis : Option OpAnalysis) (gw : PinOpsGateway)
    (state : WorkflowState) : Except String WorkflowState :=
  match state.messages.getLast? with
  | Option.none =>
    Except.ok { state with error_state := some "No task message provided", next_agent := "end" }
  | some _task_content =>
    match operation_analysis with
    | Option.none =>
      Except.ok { state with error_state := some "Could not analyze pin operation",
                             next_agent := "end" }
    | some analysis =>
      match execute_operation gw analysis state with
      | Except.error e => Except.error e
      | Except.ok (result, _calls) =>
        Except.ok { state with
          messages := [pinOpsResponseMsg result]
          results := updateResults state.results "pin_ops" (AgentResult.pinOps result)
          next_agent := if result.success then "end" else "error" }

/-- The Tool Gateway as consumed by the QA-review handler: `search_pin`
models `search_pins` with a `pin_ids` singleton (its data is the pin dict),
`search_ready` models `search_pins` by roof/status/limit (the handler only
reads the `id` of each returned pin, so the ids are returned directly),
`analytics` models `get_pin_analytics`. -/
structure QAGateway where
  search_pin : String → Except String PinData
  search_ready : Option String → Except String (List String)
  analytics : Option String → Except String (List (String × Nat) × List (String × Nat))

/-- `_review_single_pin` (`qa_reviewer.py` lines 188-218), paired with the
Tool Gateway calls made.  The `criteria` argument of the source is received
and ignored, as in `_apply_qa_criteria`.  A crash inside
`_apply_qa_criteria` propagates. -/
def review_single_pin (gw : QAGateway) (pin_id : String) (_criteria : List String) :
    Except String SingleReview × List String :=
  match gw.search_pin pin_id with
  | Except.error e =>
    (Except.ok { pin_id := pin_id, decision := Decision.REQUEST_MORE_INFO,
                 rationale := "Could not retrieve pin details: " ++ e,
                 confidence := 0 },
     ["search_pins"])
  | Except.ok pin_data =>
    match apply_qa_criteria pin_data with
    | Except.error crash => (Except.error crash, ["search_pins"])
    | Except.ok criteria_checks =>
      let d := make_qa_decision criteria_checks
      (Except.ok { pin_id := pin_id, decision := d.decision,
                   rationale := d.rationale, confidence := d.confidence },
       ["search_pins"])

/-- The sequential review loop of `_review_pins`
(`qa_reviewer.py` lines 163-167), with crash propagation and call
accumulation. -/
def reviewAll (gw : QAGateway) (criteria : List String) :
    List String → Except String (List SingleReview × List String)
  | [] => Except.ok ([], [])
  | pin_id :: rest =>
    match review_single_pin gw pin_id criteria with
    | (Except.error e, _) => Except.error e
    | (Except.ok r, calls) =>
      match reviewAll gw criteria rest with
      | Except.error e => Except.error e
      | Except.ok (rs, more) => Except.ok (r :: rs, calls ++ more)

/-- The aggregation rule of `_review_pins` (`qa_reviewer.py` lines
169-178): any ESCALATE wins, else all-APPROVE gives APPROVE, else REJECT. -/
def aggregate_decision (review_results : List SingleReview) : Decision :=
  let all_approved := review_results.all (fun r => r.decision == Decision.APPROVE)
  let any_escalated := review_results.any (fun r => r.decision == Decision.ESCALATE)
  if any_escalated then Decision.ESCALATE
  else if all_approved then Decision.APPROVE
  else Decision.REJECT

/-- `_generate_review_summary` (`qa_reviewer.py` lines 409-423). -/
def generate_review_summary (review_results : List SingleReview) : ReviewSummary :=
  let total := review_results.length
  let approved := (review_results.filter (fun r => r.decision == Decision.APPROVE)).length
  let rejected := (review_results.filter (fun r => r.decision == Decision.REJECT)).length
  let escalated := (review_results.filter (fun r => r.decision == Decision.ESCALATE)).length
  { total_reviewed := total, approved := approved, rejected := rejected,
    escalated := escalated,
    approval_rate := if total > 0 then (approved : ℚ) / (total : ℚ) else 0 }

/-- `_determine_next_steps` (`qa_reviewer.py` lines 425-449). -/
def determine_next_steps (overall_decision : Decision) : List String :=
  match overall_decision with
  | Decision.APPROVE =>
    ["Update pin statuses to Closed", "Notify stakeholders of completions",
     "Update project metrics"]
  | Decision.REJECT =>
    ["Notify field teams of rejections", "Provide specific remediation guidance",
     "Schedule re-inspection"]
  | Decision.ESCALATE =>
    ["Prepare escalation summary", "Schedule supervisor review",
     "Document complex issues"]
  | Decision.REQUEST_MORE_INFO => []

/-- `_review_pins` (`qa_reviewer.py` lines 153-186), paired with the Tool
Gateway calls made: an empty id list returns early with
REQUEST_MORE_INFO and performs no gateway call; otherwise each pin is
reviewed sequentially and the results aggregated. -/
def review_pins (gw : QAGateway) (pin_ids : List String) (criteria : List String) :
    Except String (QAResult × List String) :=
  if pin_ids.isEmpty then
    Except.ok ({ decision := Decision.REQUEST_MORE_INFO,
                 rationale := "No pin IDs provided for review",
                 requirements := ["specify_pin_ids"] }, [])
  else
    match reviewAll gw criteria pin_ids with
    | Except.error e => Except.error e
    | Except.ok (review_results, calls) =>
      let overall_decision := aggregate_decision review_results
      Except.ok ({ decision := overall_decision,
                   rationale := "Reviewed " ++ toString pin_ids.length ++ " pins",
                   individual_results := review_results,
                   summary := some (generate_review_summary review_results),
                   next_steps := determine_next_steps overall_decision },
                 calls)

/-- `_batch_review` (`qa_reviewer.py` lines 312-331): fetch the ids of the
pins ready for inspection, then reduce to `_review_pins`. -/
def batch_review (gw : QAGateway) (criteria : List String) (state : WorkflowState) :
    Except String (QAResult × List String) :=
  match gw.search_ready state.roof_id with
  | Except.error e =>
    Except.ok ({ decision := Decision.REQUEST_MORE_INFO,
                 rationale := "Could not retrieve pins for batch review: " ++ e },
               ["search_pins"])
  | Except.ok pin_ids =>
    match review_pins gw pin_ids criteria with
    | Except.error e => Except.error e
    | Except.ok (r, calls) => Except.ok (r, "search_pins" :: calls)

/-- `_analyze_quality_metrics` (`qa_reviewer.py` lines 362-396), over the
analytics data `(status_breakdown, zone_breakdown)`.  `overall_score` is the
mean of the numeric indicators present at that point (`closure_rate` when
the status total is positive, the placeholder `response_time_score`, and
`concentration_ratio` when the zone breakdown is non-empty). -/
def analyze_quality_metrics (status_breakdown zone_breakdown : List (String × Nat)) :
    QualityIndicators :=
  let total := (status_breakdown.map (fun kv => kv.2)).sum
  let closed := (status_breakdown.lookup "Closed").getD 0
  let closure_rate : Option ℚ :=
    if total > 0 then some ((closed : ℚ) / (total : ℚ)) else Option.none
  let closure_recs : List String :=
    match closure_rate with
    | some cr => if cr < 7/10 then ["Low closure rate - review workflow efficiency"] else []
    | Option.none => []
  let response_time_score : ℚ := 8/10
  let total_pins := (zone_breakdown.map (fun kv => kv.2)).sum
  let concentration_ratio : Option ℚ :=
    if zone_breakdown.length > 0 then
      some (if total_pins > 0 then
        (((zone_breakdown.map (fun kv => kv.2)).foldr max 0 : Nat) : ℚ) / (total_pins : ℚ)
      else 0)
    else Option.none
  let concentration_recs : List String :=
    match concentration_ratio with
    | some cr =>
      if cr > 1/2 then ["High concentration in single zone - investigate systemic issues"]
      else []
    | Option.none => []
  let scores : List ℚ :=
    (match closure_rate with | some cr => [cr] | Option.none => []) ++
    [response_time_score] ++
    (match concentration_ratio with | some cr => [cr] | Option.none => [])
  { closure_rate := closure_rate
    response_time_score := response_time_score
    concentration_ratio := concentration_ratio
    overall_score := if scores.isEmpty then 1/2 else scores.sum / (scores.length : ℚ)
    recommendations := closure_recs ++ concentration_recs }

/-- `_quality_audit` (`qa_reviewer.py` lines 333-360); the interpolated
percentage of the rationale is abstracted to fixed text. -/
def quality_audit (gw : QAGateway) (state : WorkflowState) :
    Except String (QAResult × List String) :=
  match gw.analytics state.roof_id with
  | Except.error _ =>
    Except.ok ({ decision := Decision.REQUEST_MORE_INFO,
                 rationale := "Could not retrieve analytics for quality audit" },
               ["get_pin_analytics"])
  | Except.ok (status_breakdown, zone_breakdown) =>
    let quality_indicators := analyze_quality_metrics status_breakdown zone_breakdown
    Except.ok ({ decision := if quality_indicators.overall_score ≥ 8/10 then
                   Decision.APPROVE else Decision.ESCALATE,
                 rationale := "Quality audit score computed",
                 quality_indicators := some quality_indicators,
                 recommendations := quality_indicators.recommendations },
               ["get_pin_analytics"])

/-- `_pattern_analysis` (`qa_reviewer.py` lines 398-407): a fixed stub. -/
def pattern_analysis_result : QAResult :=
  { decision := Decision.APPROVE,
    rationale := "Pattern analysis completed - no critical issues detected",
    recommendations := ["Continue monitoring trends"] }

/-- The parsed Classifier answer consumed by `_execute_review`
(`qa_reviewer.py` lines 131-151): the dispatch reads `operation`,
`pin_ids` and `criteria`. -/
structure QAAnalysis where
  operation : String
  pin_ids : List String
  criteria : List String
deriving DecidableEq, Repr

/-- `_execute_review` (`qa_reviewer.py` lines 131-151): string dispatch
with a structured REQUEST_MORE_INFO result as the default branch. -/
def execute_review (gw : QAGateway) (analysis : QAAnalysis) (state : WorkflowState) :
    Except String (QAResult × List String) :=
  if analysis.operation = "pin_review" then
    review_pins gw analysis.pin_ids analysis.criteria
  else if analysis.operation = "batch_review" then
    batch_review gw analysis.criteria state
  else if analysis.operation = "quality_audit" then
    quality_audit gw state
  else if analysis.operation = "pattern_analysis" then
    Except.ok (pattern_analysis_result, [])
  else
    Except.ok ({ decision := Decision.REQUEST_MORE_INFO,
                 rationale := "Unknown QA operation: " ++ analysis.operation,
                 next_steps := ["clarify_requirements"] }, [])

/-- The completion message text of `QAReviewerAgent.process`
(`qa_reviewer.py` lines 84-87). -/
def qaResponseMsg (result : QAResult) : String :=
  "[QAReviewer] QA review completed: " ++ (toString (repr result.decision)) ++
    ". Rationale: " ++ result.rationale

/-- `QAReviewerAgent.process` (`qa_reviewer.py` lines 54-94), parameterised
by the parsed Classifier analysis (`Option.none` models an unparsable
answer) and the Tool Gateway.  `next_agent` is `"end"` unless the decision
is ESCALATE, in which case it is `"supervisor"`. -/
def qaProcess (review_analysis : Option QAAnalysis) (gw : QAGateway)
    (state : WorkflowState) : Except String WorkflowState :=
  match state.messages.getLast? with
  | Option.none =>
    Except.ok { state with error_state := some "No task message provided", next_agent := "end" }
  | some _task_content =>
    match review_analysis with
    | Option.none =>
      Except.ok { state with error_state := some "Could not analyze QA task",
                             next_agent := "end" }
    | some analysis =>
      match execute_review gw analysis state with
      | Except.error e => Except.error e
      | Except.ok (result, _calls) =>
        Except.ok { state with
          messages := [qaResponseMsg result]
          results := updateResults state.results "qa_review" (AgentResult.qa result)
          next_agent := if result.decision ≠ Decision.ESCALATE then "end" else "supervisor" }

/-- The shared shape of the three passthrough handlers
(`photo_processor.py`, `spatial_analyst.py`, `reporter.py`, lines 24-36
each): append one fixed completion message, record a completed status and
terminate. -/
def passthroughProcess (agent_name result_key text : String)
    (state : WorkflowState) : WorkflowState :=
  { state with
    messages := ["[" ++ agent_name ++ "] " ++ text]
    results := updateResults state.results result_key (AgentResult.passthrough "completed")
    next_agent := "end" }

/-- `PhotoProcessorAgent.process`. -/
def photoProcess (state : WorkflowState) : WorkflowState :=
  passthroughProcess "PhotoProcessor" "photo_processing" "Photo processing completed" state

/-- `SpatialAnalystAgent.process`. -/
def spatialProcess (state : WorkflowState) : WorkflowState :=
  passthroughProcess "SpatialAnalyst" "spatial_analysis" "Spatial analysis completed" state

/-- `ReporterAgent.process`. -/
def reporterProcess (state : WorkflowState) : WorkflowState :=
  passthroughProcess "Reporter" "reporting" "Report generation completed" state

/-- The frame property of a handler step: the task-identity fields of the
workflow state are returned unchanged. -/
def FramePreserved (s s' : WorkflowState) : Prop :=
  s'.project_id = s.project_id ∧ s'.roof_id = s.roof_id ∧
  s'.current_task = s.current_task ∧ s'.context = s.context

/-- A Tool Gateway stub whose every call fails; used to evaluate handler
paths that must not depend on the gateway. -/
def gwUnavailable : PinOpsGateway :=
  { find_nearby := fun _ => Except.error "gateway unavailable"
    create := fun _ => Except.error "gateway unavailable"
    update_status := fun _ => Except.error "gateway unavailable"
    create_child := fun _ => Except.error "gateway unavailable"
    search := fun _ => Except.error "gateway unavailable" }

/-- A QA Tool Gateway stub whose every call fails. -/
def qaGwUnavailable : QAGateway :=
  { search_pin := fun _ => Except.error "gateway unavailable"
    search_ready := fun _ => Except.error "gateway unavailable"
    analytics := fun _ => Except.error "gateway unavailable" }

/-- A concrete workflow state with one task message and no error, as built
by `process_task` after supervisor routing. -/
def stExample : WorkflowState :=
  { messages := ["frobnicate the widget"]
    current_task := "frobnicate the widget"
    project_id := Option.none
    roof_id := Option.none
    context := []
    results := []
    next_agent := "pin_ops"
    error_state := Option.none }

/-- C1: in single-pin QA review, any false check among the critical set
(closing photo present, status ready for review, all children closed)
forces decision REJECT with confidence 0.95 and a rationale naming every
failed critical check; in particular, a pin with no closing photo, status
ReadyForInspection and no children is rejected with a rationale mentioning
has_closing_photo and confidence 0.95. -/
theorem C1_critical_checks_force_reject :
    (∀ c : CriteriaChecks,
      c.has_closing_photo = false ∨ c.status_ready_for_review = false ∨
        c.all_children_closed = false →
      (make_qa_decision c).decision = Decision.REJECT ∧
      (make_qa_decision c).confidence = 95/100 ∧
      (c.has_closing_photo = false →
        containsSub (make_qa_decision c).rationale "has_closing_photo" = true) ∧
      (c.status_ready_for_review = false →
        containsSub (make_qa_decision c).rationale "status_ready_for_review" = true) ∧
      (c.all_children_closed = false →
        containsSub (make_qa_decision c).rationale "all_children_closed" = true)) ∧
    (∃ c, apply_qa_criteria
        { closing_photo_url := Option.none, status := some "ReadyForInspection",
          notes := Option.none, corrective_action := Option.none,
          pin_children := [], opened_at := Option.none, due_date := Option.none }
        = Except.ok c ∧
      (make_qa_decision c).decision = Decision.REJECT ∧
      containsSub (make_qa_decision c).rationale "has_closing_photo" = true ∧
      (make_qa_decision c).confidence = 95/100) := by
  constructor
  · rintro ⟨b1, b2, hd, b3, sla, pq, ra⟩ h
    cases b1 <;> cases b2 <;> cases b3 <;>
      first
      | (refine ⟨rfl, rfl, ?_, ?_, ?_⟩ <;> intro hh <;>
          first
          | rfl
          | exact Bool.noConfusion hh)
      | (rcases h with h | h | h <;> exact Bool.noConfusion h)
  · exact ⟨_, rfl, rfl, rfl, rfl⟩

/-- Witness for C1 at a concrete checks record with a missing closing
photo. -/
theorem C1_critical_checks_force_reject_witness :
    (make_qa_decision
      { has_closing_photo := false, status_ready_for_review := true,
        has_documentation := some true, all_children_closed := true,
        within_sla := Option.none, photo_quality_acceptable := Option.none,
        resolution_appropriate := some true }).decision = Decision.REJECT ∧
    (make_qa_decision
      { has_closing_photo := false, status_ready_for_review := true,
        has_documentation := some true, all_children_closed := true,
        within_sla := Option.none, photo_quality_acceptable := Option.none,
        resolution_appropriate := some true }).confidence = 95/100 :=
  ⟨(C1_critical_checks_force_reject.1 _ (Or.inl rfl)).1,
   (C1_critical_checks_force_reject.1 _ (Or.inl rfl)).2.1⟩

/-- C2: when the three critical checks pass, the decision is driven by
`quality_score` over has_documentation / within_sla /
resolution_appropriate (true adds 1, unknown adds 0.5, false adds 0),
divided by 3: a ratio at least 0.8 gives APPROVE with confidence 0.9, a
ratio in [0.6, 0.8) gives REQUEST_MORE_INFO with confidence 0.7, and a
lower ratio gives REJECT with confidence 0.8 — for every combination of
the three values (and of the incidental photo-quality entry). -/
theorem C2_quality_ratio_thresholds :
    ∀ hd sla ra pq : Option Bool,
      ((qualityContribution hd + qualityContribution sla + qualityContribution ra) / 3 ≥ 8/10 →
        (make_qa_decision
          { has_closing_photo := true, status_ready_for_review := true,
            has_documentation := hd, all_children_closed := true,
            within_sla := sla, photo_quality_acceptable := pq,
            resolution_appropriate := ra }).decision = Decision.APPROVE ∧
        (make_qa_decision
          { has_closing_photo := true, status_ready_for_review := true,
            has_documentation := hd, all_children_closed := true,
            within_sla := sla, photo_quality_acceptable := pq,
            resolution_appropriate := ra }).confidence = 9/10) ∧
      (6/10 ≤ (qualityContribution hd + qualityContribution sla + qualityContribution ra) / 3 ∧
       (qualityContribution hd + qualityContribution sla + qualityContribution ra) / 3 < 8/10 →
        (make_qa_decision
          { has_closing_photo := true, status_ready_for_review := true,
            has_documentation := hd, all_children_closed := true,
            within_sla := sla, photo_quality_acceptable := pq,
            resolution_appropriate := ra }).decision = Decision.REQUEST_MORE_INFO ∧
        (make_qa_decision
          { has_closing_photo := true, status_ready_for_review := true,
            has_documentation := hd, all_children_closed := true,
            within_sla := sla, photo_quality_acceptable := pq,
            resolution_appropriate := ra }).confidence = 7/10) ∧
      ((qualityContribution hd + qualityContribution sla + qualityContribution ra) / 3 < 6/10 →
        (make_qa_decision
          { has_closing_photo := true, status_ready_for_review := true,
            has_documentation := hd, all_children_closed := true,
            within_sla := sla, photo_quality_acceptable := pq,
            resolution_appropriate := ra }).decision = Decision.REJECT ∧
        (make_qa_decision
          { has_closing_photo := true, status_ready_for_review := true,
            has_documentation := hd, all_children_closed := true,
            within_sla := sla, photo_quality_acceptable := pq,
            resolution_appropriate := ra }).confidence = 8/10) := by
  intro hd sla ra pq
  rcases hd with _ | b1 <;> rcases sla with _ | b2 <;> rcases ra with _ | b3
  all_goals try cases b1
  all_goals try cases b2
  all_goals try cases b3
  all_goals norm_num [make_qa_decision, qualityContribution]

/-- Witness for C2 at the spec's example: documentation true, SLA unknown,
resolution appropriate → ratio 5/6 ≥ 0.8 → APPROVE with confidence 0.9. -/
theorem C2_quality_ratio_thresholds_witness :
    (qualityContribution (some true) + qualityContribution Option.none +
        qualityContribution (some true)) / 3 ≥ 8/10 ∧
    (make_qa_decision
      { has_closing_photo := true, status_ready_for_review := true,
        has_documentation := some true, all_children_closed := true,
        within_sla := Option.none, photo_quality_acceptable := some true,
        resolution_appropriate := some true }).decision = Decision.APPROVE ∧
    (make_qa_decision
      { has_closing_photo := true, status_ready_for_review := true,
        has_documentation := some true, all_children_closed := true,
        within_sla := Option.none, photo_quality_acceptable := some true,
        resolution_appropriate := some true }).confidence = 9/10 :=
  ⟨by norm_num [qualityContribution],
   (C2_quality_ratio_thresholds (some true) Option.none (some true) (some true)).1
     (by norm_num [qualityContribution])⟩

/-- C3: for every non-empty list of individual single-pin review decisions,
the batch aggregate is ESCALATE when any individual decision is ESCALATE,
APPROVE when every individual decision is APPROVE, and REJECT otherwise; in
particular [APPROVE, REQUEST_MORE_INFO, APPROVE] aggregates to REJECT. -/
theorem C3_batch_aggregation :
    (∀ review_results : List SingleReview, review_results ≠ [] →
      ((∃ r ∈ review_results, r.decision = Decision.ESCALATE) →
        aggregate_decision review_results = Decision.ESCALATE) ∧
      ((∀ r ∈ review_results, r.decision = Decision.APPROVE) →
        aggregate_decision review_results = Decision.APPROVE) ∧
      ((¬ ∃ r ∈ review_results, r.decision = Decision.ESCALATE) →
        (∃ r ∈ review_results, r.decision ≠ Decision.APPROVE) →
        aggregate_decision review_results = Decision.REJECT)) ∧
    aggregate_decision
      [{ pin_id := "p1", decision := Decision.APPROVE,
         rationale := "ok", confidence := 9/10 },
       { pin_id := "p2", decision := Decision.REQUEST_MORE_INFO,
         rationale := "needs documentation", confidence := 7/10 },
       { pin_id := "p3", decision := Decision.APPROVE,
         rationale := "ok", confidence := 9/10 }] = Decision.REJECT := by
  constructor
  · intro review_results _hne
    refine ⟨?_, ?_, ?_⟩
    · rintro ⟨r, hr, hd⟩
      have hany : review_results.any (fun x => x.decision == Decision.ESCALATE) = true :=
        List.any_eq_true.mpr ⟨r, hr, by simp [hd]⟩
      simp [aggregate_decision, hany]
    · intro hall
      have hany : review_results.any (fun x => x.decision == Decision.ESCALATE) = false := by
        simp only [List.any_eq_false]
        intro x hx
        simp [hall x hx]
      have hallb : review_results.all (fun x => x.decision == Decision.APPROVE) = true :=
        List.all_eq_true.mpr fun x hx => by simp [hall x hx]
      simp [aggregate_decision, hany, hallb]
    · intro hno hex
      have hany : review_results.any (fun x => x.decision == Decision.ESCALATE) = false := by
        simp only [List.any_eq_false]
        intro x hx hb
        exact hno ⟨x, hx, by simpa using hb⟩
      obtain ⟨r, hr, hne⟩ := hex
      have hallb : review_results.all (fun x => x.decision == Decision.APPROVE) = false := by
        simp only [List.all_eq_false]
        exact ⟨r, hr, by simpa using hne⟩
      simp [aggregate_decision, hany, hallb]
  · rfl

/-- Witness for C3 at a concrete singleton list of APPROVE decisions. -/
theorem C3_batch_aggregation_witness :
    aggregate_decision
      [{ pin_id := "p1", decision := Decision.APPROVE,
         rationale := "ok", confidence := 9/10 }] = Decision.APPROVE :=
  (C3_batch_aggregation.1
    [{ pin_id := "p1", decision := Decision.APPROVE,
       rationale := "ok", confidence := 9/10 }]
    (by simp)).2.1 (by simp)

/-- C4 counterexample: the keyword fallback does NOT route the task text
"please review and approve pin 42" to qa_reviewer — rule 1's keyword "pin"
is a case-insensitive substring of the text and rule 1 is tested first. -/
theorem C4_fallback_counterexample :
    (analyze_task_fallback "please review and approve pin 42").1 ≠ "qa_reviewer" := by
  have h : (analyze_task_fallback "please review and approve pin 42").1 = "pin_ops" := rfl
  rw [h]
  decide

/-- C4 (amended): the keyword fallback routes "please review and approve
pin 42" to pin_ops, because rule 1's keyword "pin" matches the lowercased
text before rule 2 is ever tested. -/
theorem C4_fallback_routes_to_pin_ops :
    (analyze_task_fallback "please review and approve pin 42").1 = "pin_ops" ∧
    containsSub (lowerStr "please review and approve pin 42") "pin" = true :=
  ⟨rfl, rfl⟩

/-- C5 counterexample: a pin-operations step whose structured result is an
unknown-operation failure does not route to end — the handler leaves
`error_state` unset but sets `next_agent = "error"`, and the completion
router then returns "supervisor". -/
theorem C5_failed_result_counterexample :
    ∃ st', pinOpsProcess (some { operation := "frobnicate", parameters := [] })
        gwUnavailable stExample = Except.ok st' ∧
      st'.error_state = Option.none ∧
      st'.next_agent = "error" ∧
      agent_completion_router st' = "supervisor" ∧
      agent_completion_router st' ≠ "end" :=
  ⟨_, rfl, rfl, rfl, rfl, by decide⟩

/-- C5 (amended): for every pin-operations step whose structured result is
a ValidationError or unknown-operation failure (success = false),
`error_state` stays unset, but the handler sets `next_agent = "error"` and
the completion router returns to the Supervisor — not to Error-Recovery and
not to end. -/
theorem C5_failed_result_routes_to_supervisor
    (analysis : OpAnalysis) (gw : PinOpsGateway) (state : WorkflowState)
    (result : PinOpsResult) (calls : List String)
    (hmsg : state.messages ≠ [])
    (herr : state.error_state = Option.none)
    (hexec : execute_operation gw analysis state = Except.ok (result, calls))
    (hfail : result.success = false) :
    ∃ st', pinOpsProcess (some analysis) gw state = Except.ok st' ∧
      st'.error_state = Option.none ∧
      st'.next_agent = "error" ∧
      agent_completion_router st' = "supervisor" ∧
      agent_completion_router st' ≠ "end" := by
  obtain ⟨m, hm⟩ : ∃ m, state.messages.getLast? = some m := by
    rcases state.messages.getLast?.eq_none_or_eq_some with h1 | h1
    · exact absurd (List.getLast?_eq_none_iff.mp h1) hmsg
    · exact h1
  refine ⟨{ state with
            messages := [pinOpsResponseMsg result]
            results := updateResults state.results "pin_ops" (AgentResult.pinOps result)
            next_agent := "error" }, ?_, herr, rfl, ?_, ?_⟩
  · simp [pinOpsProcess, hm, hexec, hfail]
  · simp [agent_completion_router, herr, pyTruthy]
  · simp [agent_completion_router, herr, pyTruthy]

/-- Witness for C5 at a concrete state and an unknown-operation analysis. -/
theorem C5_failed_result_routes_to_supervisor_witness :
    ∃ st', pinOpsProcess (some { operation := "frobnicate", parameters := [] })
        gwUnavailable stExample = Except.ok st' ∧
      st'.error_state = Option.none ∧
      st'.next_agent = "error" ∧
      agent_completion_router st' = "supervisor" ∧
      agent_completion_router st' ≠ "end" :=
  C5_failed_result_routes_to_supervisor
    { operation := "frobnicate", parameters := [] } gwUnavailable stExample
    { action := "unknown_operation", success := false,
      error := some "Unknown operation: frobnicate" } []
    (by simp [stExample]) rfl rfl rfl

/-- C6: the claim says within_sla is unknown when a timestamp is missing and
otherwise compares now with the due date, always yielding a value; the code
instead raises AttributeError whenever both timestamps are present
(`datetime.fromisoformat` is looked up on the module), and only the
missing-timestamp path yields the unknown value. -/
theorem C6_within_sla_faults_when_dates_present :
    apply_qa_criteria
      { closing_photo_url := some "https://example.com/closing.jpg",
        status := some "ReadyForInspection",
        notes := some "leak fixed",
        corrective_action := some "replaced membrane section",
        pin_children := [],
        opened_at := some "2024-01-01T00:00:00Z",
        due_date := some "2024-02-01T00:00:00Z" }
      = Except.error "AttributeError: module datetime has no attribute fromisoformat" ∧
    (∃ c, apply_qa_criteria
        { closing_photo_url := some "https://example.com/closing.jpg",
          status := some "ReadyForInspection",
          notes := some "leak fixed",
          corrective_action := some "replaced membrane section",
          pin_children := [],
          opened_at := Option.none,
          due_date := some "2024-02-01T00:00:00Z" }
        = Except.ok c ∧ c.within_sla = Option.none) :=
  ⟨rfl, ⟨_, rfl, rfl⟩⟩

/-- C7: a create_pin request missing any of roof_id, x, y (absent or null)
in the merged parameters-plus-state dict returns success = false with an
error naming each missing field, and makes no Tool Gateway call (the call
log is empty). -/
theorem C7_create_pin_validation
    (gw : PinOpsGateway) (params : Dict) (state : WorkflowState)
    (hmiss : ∃ f ∈ (["roof_id", "x", "y"] : List String),
      isMissing (stateAsDict state ++ params) f = true) :
    create_pin gw params state = Except.ok
      ({ action := "create_pin", success := false,
         error := some ("Missing required fields: " ++ String.intercalate ", "
           (["roof_id", "x", "y"].filter
             (fun f => isMissing (stateAsDict state ++ params) f))) }, []) ∧
    (∀ f ∈ (["roof_id", "x", "y"] : List String),
      isMissing (stateAsDict state ++ params) f = true →
      f ∈ ["roof_id", "x", "y"].filter
        (fun f => isMissing (stateAsDict state ++ params) f)) := by
  have hne : (["roof_id", "x", "y"].filter
      (fun f => isMissing (stateAsDict state ++ params) f)) ≠ [] := by
    obtain ⟨f, hf, hmf⟩ := hmiss
    intro hcontra
    have hmem : f ∈ (["roof_id", "x", "y"].filter
        (fun f => isMissing (stateAsDict state ++ params) f)) :=
      List.mem_filter.mpr ⟨hf, hmf⟩
    rw [hcontra] at hmem
    simp at hmem
  have hvd : validate_inputs (stateAsDict state ++ params) ["roof_id", "x", "y"]
      = some ("Missing required fields: " ++ String.intercalate ", "
        (["roof_id", "x", "y"].filter
          (fun f => isMissing (stateAsDict state ++ params) f))) := by
    unfold validate_inputs
    rw [if_neg]
    simp [hne]
  refine ⟨?_, ?_⟩
  · simp only [create_pin]
    rw [hvd]
  · intro f hf hmf
    exact List.mem_filter.mpr ⟨hf, hmf⟩

/-- Witness for C7: parameters supply roof_id and x, the state supplies a
roof as well, and y is missing everywhere — the spec's round-trip test. -/
theorem C7_create_pin_validation_witness :
    create_pin gwUnavailable [("roof_id", PyVal.str "r1"), ("x", PyVal.num 1)]
      { stExample with roof_id := some "r1" } = Except.ok
      ({ action := "create_pin", success := false,
         error := some ("Missing required fields: " ++ String.intercalate ", "
           (["roof_id", "x", "y"].filter
             (fun f => isMissing
               (stateAsDict { stExample with roof_id := some "r1" } ++
                 [("roof_id", PyVal.str "r1"), ("x", PyVal.num 1)]) f))) }, []) ∧
    (∀ f ∈ (["roof_id", "x", "y"] : List String),
      isMissing (stateAsDict { stExample with roof_id := some "r1" } ++
        [("roof_id", PyVal.str "r1"), ("x", PyVal.num 1)]) f = true →
      f ∈ ["roof_id", "x", "y"].filter
        (fun f => isMissing (stateAsDict { stExample with roof_id := some "r1" } ++
          [("roof_id", PyVal.str "r1"), ("x", PyVal.num 1)]) f)) :=
  C7_create_pin_validation gwUnavailable
    [("roof_id", PyVal.str "r1"), ("x", PyVal.num 1)]
    { stExample with roof_id := some "r1" }
    ⟨"y", by simp, rfl⟩

/-- C8: the Error-Recovery node classifies an error_state detail text as
recoverable exactly when the lowercased text contains "timeout" (and as
fatal otherwise); recoverable sets next_agent = supervisor and fatal sets
next_agent = end. -/
theorem C8_error_recovery_classification
    (state : WorkflowState) (detail : String)
    (h : state.error_state = some detail) :
    ∃ st', error_handler_node state = some st' ∧
      (st'.error_state = some "recoverable" ↔
        containsSub (lowerStr detail) "timeout" = true) ∧
      (st'.error_state = some "recoverable" ∨ st'.error_state = some "fatal") ∧
      (containsSub (lowerStr detail) "timeout" = true → st'.next_agent = "supervisor") ∧
      (containsSub (lowerStr detail) "timeout" = false → st'.next_agent = "end") := by
  have hnode : error_handler_node state = some
      { state with
        messages := ["Error encountered: " ++ detail ++ ". Attempting recovery..."]
        error_state := some (classify_error detail)
        next_agent := if classify_error detail = "recoverable" then "supervisor" else "end" } := by
    simp [error_handler_node, h]
  cases hb : containsSub (lowerStr detail) "timeout" with
  | true =>
    refine ⟨_, hnode, ?_, ?_, ?_, ?_⟩ <;> simp [classify_error, hb]
  | false =>
    refine ⟨_, hnode, ?_, ?_, ?_, ?_⟩ <;> simp [classify_error, hb]

/-- Witness for C8 at the spec's example details: "gateway timeout after
30s" is recoverable, "permission denied" is fatal. -/
theorem C8_error_recovery_classification_witness :
    (∃ st', error_handler_node { stExample with
        error_state := some "gateway timeout after 30s" } = some st' ∧
      (st'.error_state = some "recoverable" ↔
        containsSub (lowerStr "gateway timeout after 30s") "timeout" = true) ∧
      (st'.error_state = some "recoverable" ∨ st'.error_state = some "fatal") ∧
      (containsSub (lowerStr "gateway timeout after 30s") "timeout" = true →
        st'.next_agent = "supervisor") ∧
      (containsSub (lowerStr "gateway timeout after 30s") "timeout" = false →
        st'.next_agent = "end")) ∧
    (∃ st', error_handler_node { stExample with
        error_state := some "permission denied" } = some st' ∧
      (st'.error_state = some "recoverable" ↔
        containsSub (lowerStr "permission denied") "timeout" = true) ∧
      (st'.error_state = some "recoverable" ∨ st'.error_state = some "fatal") ∧
      (containsSub (lowerStr "permission denied") "timeout" = true →
        st'.next_agent = "supervisor") ∧
      (containsSub (lowerStr "permission denied") "timeout" = false →
        st'.next_agent = "end")) :=
  ⟨C8_error_recovery_classification _ "gateway timeout after 30s" rfl,
   C8_error_recovery_classification _ "permission denied" rfl⟩

/-- C9: a pin review over an empty list of pin ids returns
REQUEST_MORE_INFO with the fixed rationale and makes no Tool Gateway call,
although the aggregation rule alone would return the vacuous APPROVE on an
empty result list. -/
theorem C9_empty_pin_review (gw : QAGateway) (criteria : List String) :
    (∃ r, review_pins gw [] criteria = Except.ok (r, []) ∧
      r.decision = Decision.REQUEST_MORE_INFO ∧
      r.rationale = "No pin IDs provided for review" ∧
      r.requirements = ["specify_pin_ids"]) ∧
    aggregate_decision [] = Decision.APPROVE :=
  ⟨⟨_, rfl, rfl, rfl, rfl⟩, rfl⟩

/-- C10: every handler step (pin_ops, qa_reviewer, photo_processor,
spatial_analyst, reporter), on every input state and on both its success
and its error paths, returns a state with project_id, roof_id,
current_task and context unchanged. -/
theorem C10_handlers_preserve_frame :
    (∀ (a : Option OpAnalysis) (gw : PinOpsGateway) (state st' : WorkflowState),
      pinOpsProcess a gw state = Except.ok st' → FramePreserved state st') ∧
    (∀ (a : Option QAAnalysis) (gw : QAGateway) (state st' : WorkflowState),
      qaProcess a gw state = Except.ok st' → FramePreserved state st') ∧
    (∀ state, FramePreserved state (photoProcess state)) ∧
    (∀ state, FramePreserved state (spatialProcess state)) ∧
    (∀ state, FramePreserved state (reporterProcess state)) := by
  refine ⟨?_, ?_, fun state => ⟨rfl, rfl, rfl, rfl⟩,
    fun state => ⟨rfl, rfl, rfl, rfl⟩, fun state => ⟨rfl, rfl, rfl, rfl⟩⟩
  · intro a gw state st' h
    unfold pinOpsProcess at h
    split at h
    · cases h; exact ⟨rfl, rfl, rfl, rfl⟩
    · split at h
      · cases h; exact ⟨rfl, rfl, rfl, rfl⟩
      · split at h
        · simp at h
        · cases h; exact ⟨rfl, rfl, rfl, rfl⟩
  · intro a gw state st' h
    unfold qaProcess at h
    split at h
    · cases h; exact ⟨rfl, rfl, rfl, rfl⟩
    · split at h
      · cases h; exact ⟨rfl, rfl, rfl, rfl⟩
      · split at h
        · simp at h
        · cases h; exact ⟨rfl, rfl, rfl, rfl⟩

/-- Witness for C10 on the pin-operations error path at a concrete state. -/
theorem C10_handlers_preserve_frame_witness :
    FramePreserved stExample
      { stExample with
        error_state := some "Could not analyze pin operation"
        next_agent := "end" } :=
  C10_handlers_preserve_frame.1 Option.none gwUnavailable stExample _ rfl
